import Mathlib

/-!
Verification of the AI document-analysis pipeline in
`src/utils/aiProcessor.js` (functions `analyzeWithAI`, `analyzeWithClaude`,
`analyzeWithOpenAI`, `analyzeWithGemini`, `structureAnalysis`, and the
`ANALYSIS_PROMPTS` table).  The JavaScript is shallowly embedded: strings
are Lean `String`s manipulated through explicit char-list helpers that
mirror the JavaScript string methods used by the source, `process.env`
is an explicit record of `Option String`s, the axios transport is an
explicit parameter (so that issued network requests can be observed and
counted), exceptions are `Except`, and the wall clock is a logical clock
advanced by explicit phase durations.
-/

namespace CyberBackend

/-! ## JavaScript string primitives (char-list level, kernel-computable) -/

/-- The whitespace characters recognised by `String.prototype.trim`
(restricted to the ASCII range, which is all this code base uses). -/
def isWs (c : Char) : Bool :=
  c == ' ' || c == '\t' || c == '\n' || c == '\r' || c == '\x0b' || c == '\x0c'

/-- Drop leading whitespace characters. -/
def dropWs : List Char → List Char
  | [] => []
  | c :: t => if isWs c then dropWs t else c :: t

/-- JavaScript `s.trim()`. -/
def jsTrim (s : String) : String :=
  ⟨(dropWs ((dropWs s.data.reverse)).reverse)⟩

/-- JavaScript `s.toLowerCase()` (ASCII). -/
def lowerStr (s : String) : String :=
  ⟨s.data.map Char.toLower⟩

/-- JavaScript `s.substring(0, n)`. -/
def jsSubstring (s : String) (n : Nat) : String :=
  ⟨s.data.take n⟩

/-- JavaScript `s.length`. -/
def jsLength (s : String) : Nat :=
  s.data.length

/-- `beginsWith needle hay`: `needle` is an initial run of `hay`. -/
def beginsWith : List Char → List Char → Bool
  | [], _ => true
  | _ :: _, [] => false
  | a :: as, b :: bs => a == b && beginsWith as bs

/-- `containsSub needle hay`: `needle` occurs contiguously in `hay`. -/
def containsSub (needle : List Char) : List Char → Bool
  | [] => beginsWith needle []
  | c :: t => beginsWith needle (c :: t) || containsSub needle t

/-- JavaScript `s.includes(sub)`. -/
def jsIncludes (s sub : String) : Bool :=
  containsSub sub.data s.data

/-- JavaScript `s.split('\n')` (split at every newline, keeping empty
pieces). -/
def splitOnNl : List Char → List (List Char)
  | [] => [[]]
  | c :: t =>
    let r := splitOnNl t
    if c == '\n' then [] :: r
    else
      match r with
      | [] => [[c]]
      | x :: xs => (c :: x) :: xs

/-- JavaScript truthiness of a string-or-undefined value: `undefined`
and the empty string are falsy. -/
def strTruthy : Option String → Bool
  | none => false
  | some s => s != ""

/-! ## ANALYSIS_PROMPTS (aiProcessor.js lines 5-53)

The four instruction blocks, as template-literal strings (each begins and
ends with the newline-and-indentation of the source literal). -/

def securityReviewPrompt : String :=
  "\n    Please perform a comprehensive cybersecurity review of this document. Focus on:\n    1. Security vulnerabilities or weaknesses mentioned\n    2. Compliance with security standards (ISO 27001, NIST, etc.)\n    3. Risk assessment and mitigation strategies\n    4. Access control and authentication mechanisms\n    5. Data protection and privacy considerations\n    6. Incident response procedures\n    7. Security awareness and training requirements\n    \n    Provide specific recommendations for improvement and highlight any critical security gaps.\n  "

def policyAnalysisPrompt : String :=
  "\n    Analyze this document as a cybersecurity policy or procedure. Evaluate:\n    1. Completeness and clarity of policy statements\n    2. Alignment with industry best practices\n    3. Enforceability and measurability\n    4. Coverage of key security domains\n    5. Roles and responsibilities definition\n    6. Compliance and audit requirements\n    7. Update and review mechanisms\n    \n    Suggest improvements and identify missing policy elements.\n  "

def complianceCheckPrompt : String :=
  "\n    Review this document for compliance with major cybersecurity frameworks and regulations:\n    1. GDPR/CCPA privacy requirements\n    2. SOX financial controls\n    3. HIPAA healthcare security (if applicable)\n    4. PCI DSS payment security (if applicable)\n    5. ISO 27001/27002 standards\n    6. NIST Cybersecurity Framework\n    7. Industry-specific regulations\n    \n    Identify compliance gaps and provide remediation recommendations.\n  "

def generalPrompt : String :=
  "\n    Analyze this document from a cybersecurity perspective and provide:\n    1. Summary of key security-related content\n    2. Identification of security strengths and weaknesses\n    3. Risk areas that need attention\n    4. Best practices recommendations\n    5. Implementation guidance\n    6. Priority areas for improvement\n    \n    Focus on practical, actionable insights that can improve the organization\x27s security posture.\n  "

/-- Property lookup on the `ANALYSIS_PROMPTS` object literal: `some` for
its four own keys, `none` (JavaScript `undefined`) otherwise. -/
def ANALYSIS_PROMPTS (analysisType : String) : Option String :=
  if analysisType = "security-review" then some securityReviewPrompt
  else if analysisType = "policy-analysis" then some policyAnalysisPrompt
  else if analysisType = "compliance-check" then some complianceCheckPrompt
  else if analysisType = "general" then some generalPrompt
  else none

/-- `customPrompt || ANALYSIS_PROMPTS[analysisType] || ANALYSIS_PROMPTS['general']`
(aiProcessor.js lines 58, 95, 136): JavaScript short-circuit `||` on
string truthiness. -/
def selectPrompt (analysisType : String) (customPrompt : Option String) : String :=
  if strTruthy customPrompt then customPrompt.getD ""
  else if strTruthy (ANALYSIS_PROMPTS analysisType) then
    (ANALYSIS_PROMPTS analysisType).getD ""
  else generalPrompt

/-! ## Environment, errors, transport -/

/-- The `process.env` credentials read by aiProcessor.js. -/
structure Env where
  CLAUDE_API_KEY : Option String
  OPENAI_API_KEY : Option String
  GEMINI_API_KEY : Option String
deriving DecidableEq

/-- A JavaScript `Error` value: all throw sites in aiProcessor.js build
`new Error(message)` of the one built-in class, so a surfaced error is
characterised by its message string alone. -/
structure JsError where
  message : String
deriving DecidableEq

/-- The fields of an axios rejection that the adapters read:
`error.response?.data?.error?.message` (absent for transport-level and
locally thrown errors) and `error.message`. -/
structure AxiosError where
  responseErrMsg : Option String
  message : String
deriving DecidableEq

/-- `error.response?.data?.error?.message || error.message`. -/
def axiosErrMsg (e : AxiosError) : String :=
  if strTruthy e.responseErrMsg then e.responseErrMsg.getD "" else e.message

/-- Outcome of one `axios.post`, supplied by the (mocked) transport. -/
inductive AxiosOutcome (α : Type)
  | ok (data : α)
  | fail (e : AxiosError)
deriving DecidableEq

/-! ## Outbound request payloads -/

/-- One `{role, content}` chat message. -/
structure ChatMessage where
  role : String
  content : String
deriving DecidableEq

/-- The marker the source interpolates between prompt and document:
`"\n\nDocument content:\n"`. -/
def docHeader : String := "\n\nDocument content:\n"

/-- Claude request (aiProcessor.js lines 60-76). -/
structure ClaudeRequest where
  url : String
  model : String
  maxTokens : Nat
  messages : List ChatMessage
  authKey : Option String
deriving DecidableEq

/-- OpenAI request (lines 97-117); `temperatureTimes10` encodes the
float `0.3` as tenths to stay in exact arithmetic. -/
structure OpenAIRequest where
  url : String
  model : String
  messages : List ChatMessage
  maxTokens : Nat
  temperatureTimes10 : Nat
  authKey : Option String
deriving DecidableEq

/-- Gemini request (lines 138-157); the API key travels as a URL query
parameter. -/
structure GeminiRequest where
  urlBase : String
  urlKey : Option String
  text : String
  temperatureTimes10 : Nat
  maxOutputTokens : Nat
deriving DecidableEq

/-- A network request issued by any adapter, for call counting. -/
inductive NetRequest
  | claudePost (req : ClaudeRequest)
  | openaiPost (req : OpenAIRequest)
  | geminiPost (req : GeminiRequest)
deriving DecidableEq

/-! ## Provider response envelopes -/

/-- `response.data.usage` for Claude. -/
structure ClaudeUsage where
  inputTokens : Nat
  outputTokens : Nat
deriving DecidableEq

/-- Claude `response.data`: the texts of `data.content[]` and the
optional `data.usage`. -/
structure ClaudeData where
  content : List String
  usage : Option ClaudeUsage
deriving DecidableEq

/-- OpenAI `response.data`: the message contents of `data.choices[]`
and the optional `data.usage.total_tokens`. -/
structure OpenAIData where
  choices : List String
  usageTotalTokens : Option Nat
deriving DecidableEq

/-- One Gemini candidate: the texts of `candidate.content.parts[]`. -/
structure GeminiCandidate where
  partTexts : List String
deriving DecidableEq

/-- Gemini `response.data`. -/
structure GeminiData where
  candidates : List GeminiCandidate
  usageTotalTokenCount : Option Nat
deriving DecidableEq

/-- `response.data.candidates?.[0]?.content?.parts?.[0]?.text`. -/
def geminiAnalysisText (d : GeminiData) : Option String :=
  match d.candidates with
  | [] => none
  | c :: _ =>
    match c.partTexts with
    | [] => none
    | t :: _ => some t

/-- The success value each adapter returns (provider, analysis, model,
tokensUsed, status). -/
structure AIResult where
  provider : String
  analysis : String
  model : String
  tokensUsed : Nat
  status : String
deriving DecidableEq

/-! ## Provider adapters (aiProcessor.js lines 56-177)

Each adapter returns the single request it posts together with its
result.  None of the adapters checks its credential: the request is
issued unconditionally (the credential check lives in `analyzeWithAI`),
and every failure inside the `try` block is caught by that adapter's
generic `catch`, which rethrows
`new Error(PROVIDER + " service error: " + (error.response?.data?.error?.message || error.message))`. -/

/-- Stand-in for the Node TypeError message raised by reading `.text`
(resp. `.message`) off `undefined` when the response list is empty. -/
def undefinedReadMsg : String := "Cannot read properties of undefined"

/-- `analyzeWithClaude` (lines 56-90). -/
def analyzeWithClaude (env : Env) (content : String) (analysisType : String)
    (customPrompt : Option String) (outcome : AxiosOutcome ClaudeData) :
    ClaudeRequest × Except JsError AIResult :=
  let prompt := selectPrompt analysisType customPrompt
  let req : ClaudeRequest :=
    { url := "https://api.anthropic.com/v1/messages"
      model := "claude-3-sonnet-20240229"
      maxTokens := 4000
      messages := [⟨"user", prompt ++ docHeader ++ jsSubstring content 50000⟩]
      authKey := env.CLAUDE_API_KEY }
  (req,
    match outcome with
    | .fail e => .error ⟨"Claude AI service error: " ++ axiosErrMsg e⟩
    | .ok data =>
      match data.content with
      | [] =>
        -- response.data.content[0] is undefined; reading .text throws a
        -- TypeError, caught by the same catch block (no .response field).
        .error ⟨"Claude AI service error: " ++ undefinedReadMsg⟩
      | text :: _ =>
        .ok
          { provider := "claude"
            analysis := text
            model := "claude-3-sonnet"
            tokensUsed :=
              match data.usage with
              | some u => u.inputTokens + u.outputTokens
              | none => 0
            status := "success" })

/-- `analyzeWithOpenAI` (lines 93-131). -/
def analyzeWithOpenAI (env : Env) (content : String) (analysisType : String)
    (customPrompt : Option String) (outcome : AxiosOutcome OpenAIData) :
    OpenAIRequest × Except JsError AIResult :=
  let prompt := selectPrompt analysisType customPrompt
  let req : OpenAIRequest :=
    { url := "https://api.openai.com/v1/chat/completions"
      model := "gpt-4"
      messages :=
        [⟨"system", "You are a cybersecurity expert specializing in document analysis and security assessments."⟩,
         ⟨"user", prompt ++ docHeader ++ jsSubstring content 50000⟩]
      maxTokens := 4000
      temperatureTimes10 := 3
      authKey := env.OPENAI_API_KEY }
  (req,
    match outcome with
    | .fail e => .error ⟨"OpenAI service error: " ++ axiosErrMsg e⟩
    | .ok data =>
      match data.choices with
      | [] => .error ⟨"OpenAI service error: " ++ undefinedReadMsg⟩
      | text :: _ =>
        .ok
          { provider := "openai"
            analysis := text
            model := "gpt-4"
            tokensUsed := data.usageTotalTokens.getD 0
            status := "success" })

/-- `analyzeWithGemini` (lines 134-177).  The missing-analysis-text case
(`if (!analysisText) throw new Error('No analysis text received from Gemini')`)
is itself caught by the adapter's generic catch and rewrapped. -/
def analyzeWithGemini (env : Env) (content : String) (analysisType : String)
    (customPrompt : Option String) (outcome : AxiosOutcome GeminiData) :
    GeminiRequest × Except JsError AIResult :=
  let prompt := selectPrompt analysisType customPrompt
  let req : GeminiRequest :=
    { urlBase := "https://generativelanguage.googleapis.com/v1beta/models/gemini-pro:generateContent"
      urlKey := env.GEMINI_API_KEY
      text := prompt ++ docHeader ++ jsSubstring content 50000
      temperatureTimes10 := 3
      maxOutputTokens := 4000 }
  (req,
    match outcome with
    | .fail e => .error ⟨"Gemini service error: " ++ axiosErrMsg e⟩
    | .ok data =>
      if strTruthy (geminiAnalysisText data) then
        .ok
          { provider := "gemini"
            analysis := (geminiAnalysisText data).getD ""
            model := "gemini-pro"
            tokensUsed := data.usageTotalTokenCount.getD 0
            status := "success" }
      else
        .error ⟨"Gemini service error: " ++ "No analysis text received from Gemini"⟩)

/-! ## Result structurer (aiProcessor.js lines 244-296)

The `sections` object holds dynamically typed values: `summary` starts
as a string, the other four fields start as arrays.  We model a field
value as `SVal`.  The conversion loop at lines 275-282 calls
`.split('\n')` on each non-summary field that is truthy; an array has no
`.split`, so that call throws a TypeError, which the outer catch turns
into the degraded result.  `structureAnalysisTry` is the `try` body,
returning `none` where the JavaScript throws. -/

/-- A dynamically typed JavaScript value stored in a section field. -/
inductive SVal
  | str (s : String)
  | arr (l : List String)
deriving DecidableEq

/-- The five-section record. -/
structure Sections where
  summary : SVal
  findings : SVal
  recommendations : SVal
  risks : SVal
  compliance : SVal
deriving DecidableEq

/-- The initial `sections` literal (lines 247-253). -/
def initialSections : Sections :=
  { summary := .str ""
    findings := .arr []
    recommendations := .arr []
    risks := .arr []
    compliance := .arr [] }

/-- The fallback returned by the catch block (lines 288-294). -/
def fallbackSections (analysisText : String) : Sections :=
  { summary := .str analysisText
    findings := .arr []
    recommendations := .arr []
    risks := .arr []
    compliance := .arr [] }

/-- Dynamic property read `sections[name]`. -/
def getSection (secs : Sections) (name : String) : SVal :=
  if name = "summary" then secs.summary
  else if name = "findings" then secs.findings
  else if name = "recommendations" then secs.recommendations
  else if name = "risks" then secs.risks
  else if name = "compliance" then secs.compliance
  else .str ""

/-- Dynamic property write `sections[name] = v`. -/
def setSection (secs : Sections) (name : String) (v : SVal) : Sections :=
  if name = "summary" then { secs with summary := v }
  else if name = "findings" then { secs with findings := v }
  else if name = "recommendations" then { secs with recommendations := v }
  else if name = "risks" then { secs with risks := v }
  else if name = "compliance" then { secs with compliance := v }
  else secs

/-- JavaScript truthiness of a section value: the empty string is falsy,
every array (empty or not) is truthy. -/
def jsTruthySVal : SVal → Bool
  | .str s => s != ""
  | .arr _ => true

/-- `sections[s] += content`: string concatenation, with an array
coerced to its comma-joined string form first. -/
def appendSVal (v : SVal) (content : String) : SVal :=
  match v with
  | .str s => .str (s ++ content)
  | .arr l => .str (String.intercalate "," l ++ content)

/-- `v.split('\n').filter(item => item.trim()).map(item => item.trim())`:
defined on strings; `none` models the TypeError of calling `.split` on
an array. -/
def splitSVal : SVal → Option (List String)
  | .str s =>
    some ((((splitOnNl s.data).map fun l => String.mk l).filter
      fun item => jsTrim item != "").map fun item => jsTrim item)
  | .arr _ => none

/-- `line.toLowerCase().includes('summary') || line.toLowerCase().includes('overview')`
(line 262). -/
def triggersCompliance (line : String) : Bool :=
  jsIncludes (lowerStr line) "summary" || jsIncludes (lowerStr line) "overview"

/-- One iteration of the scan loop (lines 259-267): state is
`(currentSection, currentContent)`. -/
def scanStep : String × String → String → String × String
  | (sec, buf), line =>
    (if triggersCompliance line then "compliance" else sec,
     buf ++ line ++ "\n")

/-- `analysisText.split('\n').filter(line => line.trim())` (line 255). -/
def keptLines (analysisText : String) : List String :=
  ((splitOnNl analysisText.data).map fun l => String.mk l).filter
    fun line => jsTrim line != ""

/-- The whole scan loop over the kept lines. -/
def scanLines (lines : List String) : String × String :=
  lines.foldl scanStep ("summary", "")

/-- The scan state reached on `analysisText`. -/
def scanResult (analysisText : String) : String × String :=
  scanLines (keptLines analysisText)

/-- Lines 269-272: flush the remaining buffer into the last active
section (only when the buffer, a string, is truthy). -/
def flushSections (analysisText : String) : Sections :=
  let r := scanResult analysisText
  if r.2 ≠ "" then
    setSection initialSections r.1 (appendSVal (getSection initialSections r.1) r.2)
  else initialSections

/-- Lines 275-282: the conversion of one named section, `none` on the
TypeError. -/
def convertOne (name : String) (secs : Sections) : Option Sections :=
  if jsTruthySVal (getSection secs name) then
    match splitSVal (getSection secs name) with
    | some l => some (setSection secs name (.arr l))
    | none => none
  else some secs

/-- The `forEach` over the four non-summary sections, in source order;
the first TypeError aborts the traversal. -/
def convertSections (secs : Sections) : Option Sections :=
  (convertOne "findings" secs).bind fun s1 =>
    (convertOne "recommendations" s1).bind fun s2 =>
      (convertOne "risks" s2).bind fun s3 =>
        convertOne "compliance" s3

/-- The `try` body of `structureAnalysis`; `none` where it throws. -/
def structureAnalysisTry (analysisText : String) : Option Sections :=
  convertSections (flushSections analysisText)

/-- `structureAnalysis(analysisText, analysisType)` (lines 244-296):
the catch block degrades any internal throw to the fallback.  The
`analysisType` parameter is unused by the source body. -/
def structureAnalysis (analysisText : String) (_analysisType : String) : Sections :=
  match structureAnalysisTry analysisText with
  | some secs => secs
  | none => fallbackSections analysisText

/-! ## Orchestrator `analyzeWithAI` (aiProcessor.js lines 180-241)

The wall clock is modelled by a logical clock: `Date.now()` at entry
reads `t0`; validation, the credential check and the adapter call then
advance real time by `dValidate`, `dCred` and `dAdapter` milliseconds
respectively, so the second `Date.now()` (line 220) reads
`t0 + dValidate + dCred + dAdapter` on the success path.  The `steps`
trace records, in execution order, the observable phases of a run, so
that ordering claims (what happens before what, and whether an adapter
was invoked at all) can be stated. -/

/-- Observable execution phases of one `analyzeWithAI` run. -/
inductive Step
  | readClock
  | validateEmpty
  | validateLength
  | credentialCheck (provider : String)
  | adapterCall (provider : String)
  | computeProcessingTime
deriving DecidableEq

/-- Logical wall-clock model: start instant and per-phase durations. -/
structure ClockModel where
  t0 : Nat
  dValidate : Nat
  dCred : Nat
  dAdapter : Nat
deriving DecidableEq

/-- The mocked transport: the outcome each provider's endpoint would
return if called. -/
structure Transport where
  claude : AxiosOutcome ClaudeData
  openai : AxiosOutcome OpenAIData
  gemini : AxiosOutcome GeminiData
deriving DecidableEq

/-- `result.metadata` (lines 223-228).  `processingTime` is the numeric
millisecond value interpolated into the `"<n>ms"` string; `timestamp`
is the clock reading at assembly time. -/
structure Metadata where
  analysisType : String
  contentLength : Nat
  processingTime : Nat
  timestamp : Nat
deriving DecidableEq

/-- The value returned to the caller on success: the adapter result
plus `metadata` and `structuredAnalysis`. -/
structure AnalysisOutput where
  base : AIResult
  metadata : Metadata
  structuredAnalysis : Sections
deriving DecidableEq

instance {ε α : Type} [DecidableEq ε] [DecidableEq α] : DecidableEq (Except ε α) := fun x y =>
  match x, y with
  | .ok a, .ok b =>
    if h : a = b then isTrue (by rw [h])
    else isFalse (by intro he; cases he; exact h rfl)
  | .error a, .error b =>
    if h : a = b then isTrue (by rw [h])
    else isFalse (by intro he; cases he; exact h rfl)
  | .ok _, .error _ => isFalse (by intro he; cases he)
  | .error _, .ok _ => isFalse (by intro he; cases he)

/-- Everything observable about one run: the executed phases, the
network requests issued, and the returned value or thrown error. -/
structure RunOutcome where
  steps : List Step
  netRequests : List NetRequest
  result : Except JsError AnalysisOutput
deriving DecidableEq

/-- Thrown at line 185 for empty / whitespace-only content. -/
def emptyContentError : JsError := ⟨"No content provided for analysis"⟩

/-- Thrown at line 189 for content shorter than 50 characters. -/
def tooShortError : JsError := ⟨"Content too short for meaningful analysis"⟩

/-- Assemble the success path after an adapter returned (lines
220-235). -/
def assembleSuccess (clk : ClockModel) (content analysisType : String)
    (r : AIResult) : AnalysisOutput :=
  let processingTime := clk.dValidate + clk.dCred + clk.dAdapter
  { base := r
    metadata :=
      { analysisType := analysisType
        contentLength := jsLength content
        processingTime := processingTime
        timestamp := clk.t0 + processingTime }
    structuredAnalysis := structureAnalysis r.analysis analysisType }

/-- `analyzeWithAI(content, provider, analysisType = 'general',
customPrompt = null)` (lines 180-241).  The outer try/catch only logs
and rethrows the same error, so failures propagate unchanged. -/
def analyzeWithAI (env : Env) (tr : Transport) (clk : ClockModel)
    (content : String) (provider : String) (analysisType : String)
    (customPrompt : Option String) : RunOutcome :=
  -- const startTime = Date.now();
  let s0 : List Step := [.readClock]
  -- if (!content || content.trim().length === 0) throw ...
  if content = "" ∨ jsTrim content = "" then
    { steps := s0 ++ [.validateEmpty], netRequests := [],
      result := .error emptyContentError }
  -- if (content.length < 50) throw ...
  else if jsLength content < 50 then
    { steps := s0 ++ [.validateEmpty, .validateLength], netRequests := [],
      result := .error tooShortError }
  else
    let s1 := s0 ++ [.validateEmpty, .validateLength]
    -- switch (provider.toLowerCase())
    if lowerStr provider = "claude" then
      if strTruthy env.CLAUDE_API_KEY then
        let (req, res) := analyzeWithClaude env content analysisType customPrompt tr.claude
        let s2 := s1 ++ [.credentialCheck "claude", .adapterCall "claude"]
        match res with
        | .error e => { steps := s2, netRequests := [.claudePost req], result := .error e }
        | .ok r =>
          { steps := s2 ++ [.computeProcessingTime]
            netRequests := [.claudePost req]
            result := .ok (assembleSuccess clk content analysisType r) }
      else
        { steps := s1 ++ [.credentialCheck "claude"], netRequests := [],
          result := .error ⟨"Claude API key not configured"⟩ }
    else if lowerStr provider = "openai" then
      if strTruthy env.OPENAI_API_KEY then
        let (req, res) := analyzeWithOpenAI env content analysisType customPrompt tr.openai
        let s2 := s1 ++ [.credentialCheck "openai", .adapterCall "openai"]
        match res with
        | .error e => { steps := s2, netRequests := [.openaiPost req], result := .error e }
        | .ok r =>
          { steps := s2 ++ [.computeProcessingTime]
            netRequests := [.openaiPost req]
            result := .ok (assembleSuccess clk content analysisType r) }
      else
        { steps := s1 ++ [.credentialCheck "openai"], netRequests := [],
          result := .error ⟨"OpenAI API key not configured"⟩ }
    else if lowerStr provider = "gemini" then
      if strTruthy env.GEMINI_API_KEY then
        let (req, res) := analyzeWithGemini env content analysisType customPrompt tr.gemini
        let s2 := s1 ++ [.credentialCheck "gemini", .adapterCall "gemini"]
        match res with
        | .error e => { steps := s2, netRequests := [.geminiPost req], result := .error e }
        | .ok r =>
          { steps := s2 ++ [.computeProcessingTime]
            netRequests := [.geminiPost req]
            result := .ok (assembleSuccess clk content analysisType r) }
      else
        { steps := s1 ++ [.credentialCheck "gemini"], netRequests := [],
          result := .error ⟨"Gemini API key not configured"⟩ }
    else
      { steps := s1, netRequests := [],
        result := .error ⟨"Unsupported AI provider: " ++ provider⟩ }

/-! ## General helper lemmas -/

theorem data_append (p q : String) : (p ++ q).data = p.data ++ q.data := rfl

theorem take_append_le {α : Type} (n : Nat) (l1 l2 : List α) (h : n ≤ l1.length) :
    (l1 ++ l2).take n = l1.take n := by
  induction l1 generalizing n with
  | nil =>
    have : n = 0 := Nat.le_zero.mp h
    simp [this]
  | cons a t ih =>
    cases n with
    | zero => simp
    | succ m =>
      simp only [List.cons_append, List.take_succ_cons]
      rw [ih m (Nat.le_of_succ_le_succ h)]

/-- A string with the fixed head `p` differs from any string whose first
`n` characters differ from those of `p`. -/
theorem append_ne_of_take (p s q : String) (n : Nat) (hn : n ≤ p.data.length)
    (h : p.data.take n ≠ q.data.take n) : p ++ s ≠ q := by
  intro he
  apply h
  have hd : q.data = p.data ++ s.data := by rw [← he]; rfl
  rw [hd, take_append_le n p.data s.data hn]

theorem take_of_le_len {α : Type} (n : Nat) (l : List α) (h : l.length ≤ n) :
    l.take n = l := by
  induction l generalizing n with
  | nil => simp
  | cons a t ih =>
    cases n with
    | zero => exact absurd h (by simp)
    | succ m =>
      simp only [List.take_succ_cons]
      rw [ih m (Nat.le_of_succ_le_succ h)]

/-! ## Structural lemmas about the embedded source -/

/-- The scan state machine only ever targets `summary` or `compliance`. -/
theorem scanLines_fst_mem (lines : List String) (sec buf : String)
    (h : sec = "summary" ∨ sec = "compliance") :
    (lines.foldl scanStep (sec, buf)).1 = "summary" ∨
      (lines.foldl scanStep (sec, buf)).1 = "compliance" := by
  induction lines generalizing sec buf with
  | nil => simpa using h
  | cons l ls ih =>
    simp only [List.foldl_cons]
    apply ih
    by_cases ht : triggersCompliance l
    · simp [scanStep, ht]
    · simp [scanStep, ht]
      exact h

theorem scanResult_fst_mem (t : String) :
    (scanResult t).1 = "summary" ∨ (scanResult t).1 = "compliance" :=
  scanLines_fst_mem (keptLines t) "summary" "" (Or.inl rfl)

/-- Flushing the buffer never touches `findings`. -/
theorem flushSections_findings (t : String) :
    (flushSections t).findings = SVal.arr [] := by
  unfold flushSections
  rcases scanResult_fst_mem t with h | h <;>
    by_cases hb : (scanResult t).2 ≠ "" <;>
      simp [hb, h, setSection, initialSections, getSection, appendSVal]

/-- The conversion loop throws its TypeError on `findings` whenever that
field still holds an array, which aborts the whole `try` body. -/
theorem convertSections_none (secs : Sections) (h : secs.findings = SVal.arr []) :
    convertSections secs = none := by
  have hg : getSection secs "findings" = SVal.arr [] := by
    simp [getSection, h]
  simp [convertSections, convertOne, hg, jsTruthySVal, splitSVal]

/-- `structureAnalysis` returns the catch-block fallback on every input:
`sections.findings` is still the initial array when the conversion loop
reaches it, and calling `.split` on an array throws. -/
theorem structureAnalysis_eq_fallback (t aty : String) :
    structureAnalysis t aty = fallbackSections t := by
  unfold structureAnalysis structureAnalysisTry
  rw [convertSections_none _ (flushSections_findings t)]

/-! ## Adapter result shapes -/

theorem claude_result_shape (env : Env) (content aty : String) (cp : Option String)
    (o : AxiosOutcome ClaudeData) :
    (∃ r, (analyzeWithClaude env content aty cp o).2 = .ok r) ∨
    (∃ d, (analyzeWithClaude env content aty cp o).2
      = .error ⟨"Claude AI service error: " ++ d⟩) := by
  cases o with
  | fail e => exact .inr ⟨axiosErrMsg e, rfl⟩
  | ok data =>
    rcases data with ⟨content', usage⟩
    cases content' with
    | nil => exact .inr ⟨undefinedReadMsg, rfl⟩
    | cons t ts => exact .inl ⟨_, rfl⟩

theorem openai_result_shape (env : Env) (content aty : String) (cp : Option String)
    (o : AxiosOutcome OpenAIData) :
    (∃ r, (analyzeWithOpenAI env content aty cp o).2 = .ok r) ∨
    (∃ d, (analyzeWithOpenAI env content aty cp o).2
      = .error ⟨"OpenAI service error: " ++ d⟩) := by
  cases o with
  | fail e => exact .inr ⟨axiosErrMsg e, rfl⟩
  | ok data =>
    rcases data with ⟨choices, usage⟩
    cases choices with
    | nil => exact .inr ⟨undefinedReadMsg, rfl⟩
    | cons t ts => exact .inl ⟨_, rfl⟩

theorem gemini_result_shape (env : Env) (content aty : String) (cp : Option String)
    (o : AxiosOutcome GeminiData) :
    (∃ r, (analyzeWithGemini env content aty cp o).2 = .ok r) ∨
    (∃ d, (analyzeWithGemini env content aty cp o).2
      = .error ⟨"Gemini service error: " ++ d⟩) := by
  cases o with
  | fail e => exact .inr ⟨axiosErrMsg e, rfl⟩
  | ok data =>
    by_cases ht : strTruthy (geminiAnalysisText data)
    · exact .inl ⟨AIResult.mk "gemini" ((geminiAnalysisText data).getD "") "gemini-pro"
        (data.usageTotalTokenCount.getD 0) "success", by simp [analyzeWithGemini, ht]⟩
    · exact .inr ⟨"No analysis text received from Gemini", by simp [analyzeWithGemini, ht]⟩

/-! ## Orchestrator characterisation -/

theorem valid_content_checks (content : String) (h1 : jsTrim content ≠ "") :
    ¬(content = "" ∨ jsTrim content = "") := by
  rintro (rfl | he)
  · exact h1 rfl
  · exact h1 he

/-- Once content passes validation, the run either succeeds or fails
with one of the messages produced after the validation stage. -/
theorem postValidationResult (env : Env) (tr : Transport) (clk : ClockModel)
    (content provider aty : String) (cp : Option String)
    (h1 : jsTrim content ≠ "") (h2 : ¬ jsLength content < 50) :
    (∃ out, (analyzeWithAI env tr clk content provider aty cp).result = .ok out) ∨
    (∃ m, (analyzeWithAI env tr clk content provider aty cp).result = .error ⟨m⟩ ∧
      ((∃ d, m = "Claude AI service error: " ++ d) ∨
       (∃ d, m = "OpenAI service error: " ++ d) ∨
       (∃ d, m = "Gemini service error: " ++ d) ∨
       m = "Claude API key not configured" ∨
       m = "OpenAI API key not configured" ∨
       m = "Gemini API key not configured" ∨
       m = "Unsupported AI provider: " ++ provider)) := by
  have h0 := valid_content_checks content h1
  by_cases hcl : lowerStr provider = "claude"
  · by_cases hk : strTruthy env.CLAUDE_API_KEY = true
    · rcases hpe : analyzeWithClaude env content aty cp tr.claude with ⟨reqc, resc⟩
      rcases claude_result_shape env content aty cp tr.claude with ⟨r, hr⟩ | ⟨d, hd⟩
      · rw [hpe] at hr
        exact .inl ⟨assembleSuccess clk content aty r,
          by simp [analyzeWithAI, h0, h2, hcl, hk, hpe, hr]⟩
      · rw [hpe] at hd
        exact .inr ⟨"Claude AI service error: " ++ d,
          by simp [analyzeWithAI, h0, h2, hcl, hk, hpe, hd], .inl ⟨d, rfl⟩⟩
    · exact .inr ⟨"Claude API key not configured",
        by simp [analyzeWithAI, h0, h2, hcl, hk],
        by simp⟩
  · by_cases hop : lowerStr provider = "openai"
    · by_cases hk : strTruthy env.OPENAI_API_KEY = true
      · rcases hpe : analyzeWithOpenAI env content aty cp tr.openai with ⟨reqo, reso⟩
        rcases openai_result_shape env content aty cp tr.openai with ⟨r, hr⟩ | ⟨d, hd⟩
        · rw [hpe] at hr
          exact .inl ⟨assembleSuccess clk content aty r,
            by simp [analyzeWithAI, h0, h2, hcl, hop, hk, hpe, hr]⟩
        · rw [hpe] at hd
          exact .inr ⟨"OpenAI service error: " ++ d,
            by simp [analyzeWithAI, h0, h2, hcl, hop, hk, hpe, hd], .inr (.inl ⟨d, rfl⟩)⟩
      · exact .inr ⟨"OpenAI API key not configured",
          by simp [analyzeWithAI, h0, h2, hcl, hop, hk],
          by simp⟩
    · by_cases hgm : lowerStr provider = "gemini"
      · by_cases hk : strTruthy env.GEMINI_API_KEY = true
        · rcases hpe : analyzeWithGemini env content aty cp tr.gemini with ⟨reqg, resg⟩
          rcases gemini_result_shape env content aty cp tr.gemini with ⟨r, hr⟩ | ⟨d, hd⟩
          · rw [hpe] at hr
            exact .inl ⟨assembleSuccess clk content aty r,
              by simp [analyzeWithAI, h0, h2, hcl, hop, hgm, hk, hpe, hr]⟩
          · rw [hpe] at hd
            exact .inr ⟨"Gemini service error: " ++ d,
              by simp [analyzeWithAI, h0, h2, hcl, hop, hgm, hk, hpe, hd],
              .inr (.inr (.inl ⟨d, rfl⟩))⟩
        · exact .inr ⟨"Gemini API key not configured",
            by simp [analyzeWithAI, h0, h2, hcl, hop, hgm, hk],
            by simp⟩
      · exact .inr ⟨"Unsupported AI provider: " ++ provider,
          by simp [analyzeWithAI, h0, h2, hcl, hop, hgm],
          by simp⟩

/-! ## Concrete fixtures for witnesses and counterexamples -/

/-- 60 non-blank characters: passes validation. -/
def c60 : String := ⟨List.replicate 60 'a'⟩

/-- 49 non-blank characters: fails the length floor. -/
def c49 : String := ⟨List.replicate 49 'b'⟩

/-- All three credentials configured. -/
def envAll : Env := ⟨some "ck", some "okey", some "gk"⟩

/-- No credential configured. -/
def envNone : Env := ⟨none, none, none⟩

/-- Transport where every provider answers with one analysis text. -/
def trOk : Transport :=
  ⟨.ok ⟨["Analysis text."], none⟩, .ok ⟨["Analysis text."], none⟩,
   .ok ⟨[⟨["Analysis text."]⟩], none⟩⟩

/-- Transport where every provider call rejects at transport level. -/
def trFail : Transport :=
  ⟨.fail ⟨none, "boom"⟩, .fail ⟨none, "boom"⟩, .fail ⟨none, "boom"⟩⟩

/-- Clock: validation 5 ms, credential check 1 ms, adapter call 7 ms. -/
def clkW : ClockModel := ⟨100, 5, 1, 7⟩

/-! ## C1 -/

/-- C1: every empty or whitespace-only content is rejected as the
empty-content error before the length check runs (the step trace stops
at the emptiness check); for content that is not whitespace-only the
run fails with the too-short error exactly when its length is below 50,
and at 50 or more characters neither validation error can be the
outcome. -/
theorem contentValidationPolicy (env : Env) (tr : Transport) (clk : ClockModel)
    (content provider aty : String) (cp : Option String) :
    (jsTrim content = "" →
      (analyzeWithAI env tr clk content provider aty cp).result = .error emptyContentError ∧
      (analyzeWithAI env tr clk content provider aty cp).steps
        = [.readClock, .validateEmpty]) ∧
    (jsTrim content ≠ "" → jsLength content < 50 →
      (analyzeWithAI env tr clk content provider aty cp).result = .error tooShortError) ∧
    (jsTrim content ≠ "" → ¬ jsLength content < 50 →
      (analyzeWithAI env tr clk content provider aty cp).result ≠ .error emptyContentError ∧
      (analyzeWithAI env tr clk content provider aty cp).result ≠ .error tooShortError) := by
  refine ⟨?_, ?_, ?_⟩
  · intro h
    constructor <;> simp [analyzeWithAI, h]
  · intro h1 h2
    have h0 := valid_content_checks content h1
    simp [analyzeWithAI, h0, h2]
  · intro h1 h2
    rcases postValidationResult env tr clk content provider aty cp h1 h2 with
      ⟨out, hout⟩ | ⟨m, hm, hcases⟩
    · rw [hout]
      exact ⟨by simp, by simp⟩
    · rw [hm]
      rcases hcases with ⟨d, rfl⟩ | ⟨d, rfl⟩ | ⟨d, rfl⟩ | rfl | rfl | rfl | rfl <;>
        simp only [ne_eq, Except.error.injEq, JsError.mk.injEq, emptyContentError,
          tooShortError] <;>
        constructor
      · exact append_ne_of_take _ d _ 1 (by decide) (by decide)
      · exact append_ne_of_take _ d _ 2 (by decide) (by decide)
      · exact append_ne_of_take _ d _ 1 (by decide) (by decide)
      · exact append_ne_of_take _ d _ 1 (by decide) (by decide)
      · exact append_ne_of_take _ d _ 1 (by decide) (by decide)
      · exact append_ne_of_take _ d _ 1 (by decide) (by decide)
      · decide
      · decide
      · decide
      · decide
      · decide
      · decide
      · exact append_ne_of_take _ provider _ 1 (by decide) (by decide)
      · exact append_ne_of_take _ provider _ 1 (by decide) (by decide)

/-- C1 witness: whitespace-only content, 49 characters, 60 characters. -/
theorem contentValidationPolicy_witness :
    (analyzeWithAI envAll trOk clkW "   " "claude" "general" none).result
      = .error emptyContentError ∧
    (analyzeWithAI envAll trOk clkW c49 "claude" "general" none).result
      = .error tooShortError ∧
    (analyzeWithAI envAll trOk clkW c60 "claude" "general" none).result
      ≠ .error emptyContentError := by
  refine ⟨((contentValidationPolicy envAll trOk clkW "   " "claude" "general" none).1
      (by decide)).1, ?_, ?_⟩
  · exact (contentValidationPolicy envAll trOk clkW c49 "claude" "general" none).2.1
      (by decide) (by decide)
  · exact ((contentValidationPolicy envAll trOk clkW c60 "claude" "general" none).2.2
      (by decide) (by decide)).1

/-! ## C2 -/

/-- C2: for each of the three providers, the per-provider dispatch path
checks its own credential before calling the adapter; with the
credential absent (or empty, which JavaScript treats as falsy) the run
fails with that provider's not-configured error, no network request is
issued, and no adapter is invoked (the step trace ends at the
credential check). -/
theorem missingCredentialShortCircuits (env : Env) (tr : Transport) (clk : ClockModel)
    (content aty : String) (cp : Option String)
    (h1 : jsTrim content ≠ "") (h2 : ¬ jsLength content < 50) :
    (strTruthy env.CLAUDE_API_KEY = false →
      analyzeWithAI env tr clk content "claude" aty cp =
        { steps := [.readClock, .validateEmpty, .validateLength, .credentialCheck "claude"],
          netRequests := [],
          result := .error ⟨"Claude API key not configured"⟩ }) ∧
    (strTruthy env.OPENAI_API_KEY = false →
      analyzeWithAI env tr clk content "openai" aty cp =
        { steps := [.readClock, .validateEmpty, .validateLength, .credentialCheck "openai"],
          netRequests := [],
          result := .error ⟨"OpenAI API key not configured"⟩ }) ∧
    (strTruthy env.GEMINI_API_KEY = false →
      analyzeWithAI env tr clk content "gemini" aty cp =
        { steps := [.readClock, .validateEmpty, .validateLength, .credentialCheck "gemini"],
          netRequests := [],
          result := .error ⟨"Gemini API key not configured"⟩ }) := by
  have h0 := valid_content_checks content h1
  have hc : lowerStr "claude" = "claude" := by decide
  have ho : lowerStr "openai" = "openai" := by decide
  have hg : lowerStr "gemini" = "gemini" := by decide
  refine ⟨fun hk => ?_, fun hk => ?_, fun hk => ?_⟩ <;>
    simp [analyzeWithAI, h0, h2, hc, ho, hg, hk]

/-- C2 witness: with no credential configured, each provider's run
fails as not-configured and issues zero network requests. -/
theorem missingCredentialShortCircuits_witness :
    analyzeWithAI envNone trOk clkW c60 "claude" "general" none =
      { steps := [.readClock, .validateEmpty, .validateLength, .credentialCheck "claude"],
        netRequests := [],
        result := .error ⟨"Claude API key not configured"⟩ } ∧
    analyzeWithAI envNone trOk clkW c60 "openai" "general" none =
      { steps := [.readClock, .validateEmpty, .validateLength, .credentialCheck "openai"],
        netRequests := [],
        result := .error ⟨"OpenAI API key not configured"⟩ } ∧
    analyzeWithAI envNone trOk clkW c60 "gemini" "general" none =
      { steps := [.readClock, .validateEmpty, .validateLength, .credentialCheck "gemini"],
        netRequests := [],
        result := .error ⟨"Gemini API key not configured"⟩ } := by
  have h := missingCredentialShortCircuits envNone trOk clkW c60 "general" none
    (by decide) (by decide)
  exact ⟨h.1 rfl, h.2.1 rfl, h.2.2 rfl⟩

/-! ## C3 -/

/-- Boolean success test on an adapter result. -/
def isOkB : Except JsError AIResult → Bool
  | .ok _ => true
  | .error _ => false

/-- C3: every adapter embeds exactly the first 50,000 characters of the
content after the document header (the whole content when it has at
most 50,000 characters), and truncation is silent: whether the call
succeeds or fails does not depend on the content at all. -/
theorem contentTruncationPolicy (env : Env) (content aty : String) (cp : Option String)
    (oc : AxiosOutcome ClaudeData) (oo : AxiosOutcome OpenAIData)
    (og : AxiosOutcome GeminiData) :
    ((analyzeWithClaude env content aty cp oc).1.messages
      = [⟨"user", selectPrompt aty cp ++ docHeader ++ jsSubstring content 50000⟩]) ∧
    ((analyzeWithOpenAI env content aty cp oo).1.messages
      = [⟨"system", "You are a cybersecurity expert specializing in document analysis and security assessments."⟩,
         ⟨"user", selectPrompt aty cp ++ docHeader ++ jsSubstring content 50000⟩]) ∧
    ((analyzeWithGemini env content aty cp og).1.text
      = selectPrompt aty cp ++ docHeader ++ jsSubstring content 50000) ∧
    (jsLength content ≤ 50000 → jsSubstring content 50000 = content) ∧
    (∀ c2 : String,
      isOkB (analyzeWithClaude env content aty cp oc).2
        = isOkB (analyzeWithClaude env c2 aty cp oc).2 ∧
      isOkB (analyzeWithOpenAI env content aty cp oo).2
        = isOkB (analyzeWithOpenAI env c2 aty cp oo).2 ∧
      isOkB (analyzeWithGemini env content aty cp og).2
        = isOkB (analyzeWithGemini env c2 aty cp og).2) := by
  refine ⟨rfl, rfl, rfl, ?_, ?_⟩
  · intro h
    cases content with
    | mk data =>
      show String.mk (data.take 50000) = String.mk data
      rw [take_of_le_len _ _ h]
  · intro c2
    refine ⟨?_, ?_, ?_⟩
    · cases oc with
      | fail e => rfl
      | ok data =>
        rcases data with ⟨cs, u⟩
        cases cs <;> rfl
    · cases oo with
      | fail e => rfl
      | ok data =>
        rcases data with ⟨cs, u⟩
        cases cs <;> rfl
    · cases og with
      | fail e => rfl
      | ok data =>
        by_cases ht : strTruthy (geminiAnalysisText data) = true <;>
          simp [analyzeWithGemini, ht, isOkB]

/-- C3 witness: the 60-character fixture is shorter than the ceiling,
so the payload carries it whole. -/
theorem contentTruncationPolicy_witness :
    (analyzeWithClaude envAll c60 "general" none trOk.claude).1.messages
      = [⟨"user", selectPrompt "general" none ++ docHeader ++ jsSubstring c60 50000⟩] ∧
    jsSubstring c60 50000 = c60 := by
  have h := contentTruncationPolicy envAll c60 "general" none trOk.claude trOk.openai
    trOk.gemini
  exact ⟨h.1, h.2.2.2.1 (by decide)⟩

/-! ## C4 -/

/-- C4: the instruction sent to the model is the customPrompt verbatim
whenever it is present and non-empty; otherwise the block keyed by
`analysisType` in `ANALYSIS_PROMPTS`; otherwise (key absent from the
table) the general block — and the adapters embed exactly this selected
instruction at the head of the outbound payload. -/
theorem promptSelectionPolicy :
    (∀ (aty c : String), c ≠ "" → selectPrompt aty (some c) = c) ∧
    (ANALYSIS_PROMPTS "security-review" = some securityReviewPrompt ∧
     ANALYSIS_PROMPTS "policy-analysis" = some policyAnalysisPrompt ∧
     ANALYSIS_PROMPTS "compliance-check" = some complianceCheckPrompt ∧
     ANALYSIS_PROMPTS "general" = some generalPrompt) ∧
    (∀ (aty : String) (cp : Option String) (p : String),
      (cp = none ∨ cp = some "") → ANALYSIS_PROMPTS aty = some p →
      selectPrompt aty cp = p) ∧
    (∀ (aty : String) (cp : Option String),
      (cp = none ∨ cp = some "") → ANALYSIS_PROMPTS aty = none →
      selectPrompt aty cp = generalPrompt) ∧
    (∀ (env : Env) (content aty : String) (cp : Option String)
        (oc : AxiosOutcome ClaudeData),
      (analyzeWithClaude env content aty cp oc).1.messages
        = [⟨"user", selectPrompt aty cp ++ docHeader ++ jsSubstring content 50000⟩]) := by
  refine ⟨?_, ⟨rfl, rfl, rfl, rfl⟩, ?_, ?_, fun _ _ _ _ _ => rfl⟩
  · intro aty c h
    simp [selectPrompt, strTruthy, bne_iff_ne, h]
  · intro aty cp p hcp hl
    unfold ANALYSIS_PROMPTS at hl
    split_ifs at hl with ha1 ha2 ha3 ha4
    · subst ha1
      simp only [Option.some.injEq] at hl
      subst hl
      rcases hcp with rfl | rfl <;> rfl
    · subst ha2
      simp only [Option.some.injEq] at hl
      subst hl
      rcases hcp with rfl | rfl <;> rfl
    · subst ha3
      simp only [Option.some.injEq] at hl
      subst hl
      rcases hcp with rfl | rfl <;> rfl
    · subst ha4
      simp only [Option.some.injEq] at hl
      subst hl
      rcases hcp with rfl | rfl <;> rfl
  · intro aty cp hcp hl
    rcases hcp with rfl | rfl <;> simp [selectPrompt, hl, strTruthy]

/-- C4 witness: custom prompt wins, known key selects its block,
unknown key falls back to the general block. -/
theorem promptSelectionPolicy_witness :
    selectPrompt "security-review" (some "Custom instruction") = "Custom instruction" ∧
    selectPrompt "security-review" none = securityReviewPrompt ∧
    selectPrompt "nonsense" none = generalPrompt := by
  refine ⟨promptSelectionPolicy.1 "security-review" "Custom instruction" (by decide),
    promptSelectionPolicy.2.2.1 "security-review" none securityReviewPrompt
      (Or.inl rfl) rfl,
    promptSelectionPolicy.2.2.2.1 "nonsense" none (Or.inl rfl) rfl⟩

/-! ## C5 -/

/-- C5: with valid content, any provider whose lower-cased form is none
of the three recognised names makes the run fail with the
unsupported-provider error; the run issues no network request, and the
step trace shows no credential check or adapter call. -/
theorem unsupportedProviderRejected (env : Env) (tr : Transport) (clk : ClockModel)
    (content provider aty : String) (cp : Option String)
    (h1 : jsTrim content ≠ "") (h2 : ¬ jsLength content < 50)
    (hp1 : lowerStr provider ≠ "claude") (hp2 : lowerStr provider ≠ "openai")
    (hp3 : lowerStr provider ≠ "gemini") :
    analyzeWithAI env tr clk content provider aty cp =
      { steps := [.readClock, .validateEmpty, .validateLength],
        netRequests := [],
        result := .error ⟨"Unsupported AI provider: " ++ provider⟩ } := by
  have h0 := valid_content_checks content h1
  simp [analyzeWithAI, h0, h2, hp1, hp2, hp3]

/-- C5 witness: provider string `foo` with valid content. -/
theorem unsupportedProviderRejected_witness :
    analyzeWithAI envAll trOk clkW c60 "foo" "general" none =
      { steps := [.readClock, .validateEmpty, .validateLength],
        netRequests := [],
        result := .error ⟨"Unsupported AI provider: foo"⟩ } :=
  unsupportedProviderRejected envAll trOk clkW c60 "foo" "general" none
    (by decide) (by decide) (by decide) (by decide) (by decide)

/-! ## C6 -/

/-- C6: a line whose lower-cased form contains `summary` or `overview`
switches the scan target for the accumulated content to `compliance`;
at end of scan the (never previously flushed) buffer is flushed into
whichever section was last active; and in the returned value every
section other than `summary` is an ordered sequence of non-blank,
trimmed lines. -/
theorem sectionScanBehavior :
    (∀ (sec buf line : String), triggersCompliance line = true →
      scanStep (sec, buf) line = ("compliance", buf ++ line ++ "\n")) ∧
    (∀ line : String, triggersCompliance line
      = (jsIncludes (lowerStr line) "summary" || jsIncludes (lowerStr line) "overview")) ∧
    (∀ t : String, (scanResult t).2 ≠ "" →
      getSection (flushSections t) (scanResult t).1 = SVal.str (scanResult t).2) ∧
    (∀ (t aty name : String),
      name ∈ (["findings", "recommendations", "risks", "compliance"] : List String) →
      ∃ l, getSection (structureAnalysis t aty) name = SVal.arr l ∧
        ∀ x ∈ l, jsTrim x = x ∧ x ≠ "") := by
  refine ⟨?_, fun _ => rfl, ?_, ?_⟩
  · intro sec buf line ht
    simp [scanStep, ht]
  · intro t hb
    unfold flushSections
    rcases scanResult_fst_mem t with h | h <;>
      simp [hb, h, setSection, getSection, initialSections, appendSVal]
    all_goals rfl
  · intro t aty name hname
    rw [structureAnalysis_eq_fallback]
    fin_cases hname <;>
      exact ⟨[], by simp [getSection, fallbackSections], by simp⟩

/-- C6 witness: a concrete line triggers the switch, and the flushed
buffer lands (as one string) in the `compliance` slot. -/
theorem sectionScanBehavior_witness :
    scanStep ("summary", "") "Overview: x" = ("compliance", "Overview: x\n") ∧
    getSection (flushSections "Overview: x") "compliance" = SVal.str "Overview: x\n" ∧
    (∃ l, getSection (structureAnalysis "Overview: x" "general") "compliance" = SVal.arr l ∧
      ∀ x ∈ l, jsTrim x = x ∧ x ≠ "") := by
  refine ⟨sectionScanBehavior.1 "summary" "" "Overview: x" (by decide), ?_,
    sectionScanBehavior.2.2.2 "Overview: x" "general" "compliance" (by simp)⟩
  have h := sectionScanBehavior.2.2.1 "Overview: x" (by decide)
  exact h

/-! ## C7 -/

/-- C7: the structurer is a total function; on every input (hence in
particular in the absence of recognisable structure and on the internal
anomaly its conversion loop always hits) it returns exactly the
degraded record: the whole raw text as `summary` and the four list
sections empty. -/
theorem structurerTotalDegrades (t aty : String) :
    structureAnalysis t aty =
      { summary := .str t, findings := .arr [], recommendations := .arr [],
        risks := .arr [], compliance := .arr [] } :=
  structureAnalysis_eq_fallback t aty

/-! ## C10 -/

/-- C10: the returned `findings`, `recommendations` and `risks` are
empty for every input, and the scan target only ever takes the values
`summary` or `compliance`. -/
theorem threeSectionsAlwaysEmpty (t aty : String) :
    (structureAnalysis t aty).findings = SVal.arr [] ∧
    (structureAnalysis t aty).recommendations = SVal.arr [] ∧
    (structureAnalysis t aty).risks = SVal.arr [] ∧
    ∀ lines : List String,
      (scanLines lines).1 = "summary" ∨ (scanLines lines).1 = "compliance" := by
  refine ⟨?_, ?_, ?_, fun lines => scanLines_fst_mem lines "summary" "" (Or.inl rfl)⟩ <;>
    rw [structureAnalysis_eq_fallback] <;> rfl

/-! ## C8 -/

/-- Gemini response with an empty candidate list (no analysis text). -/
def geminiNoText : GeminiData := ⟨[], none⟩

/-- A transport-level rejection whose plain message happens to read like
the missing-text message. -/
def geminiLikeFail : AxiosError := ⟨none, "No analysis text received from Gemini"⟩

/-- Transport whose Gemini endpoint rejects with `geminiLikeFail`. -/
def trGemFail : Transport :=
  ⟨.fail ⟨none, "boom"⟩, .fail ⟨none, "boom"⟩, .fail geminiLikeFail⟩

/-- Transport whose Gemini endpoint returns an empty candidate list. -/
def trGemNoText : Transport :=
  ⟨.fail ⟨none, "boom"⟩, .fail ⟨none, "boom"⟩, .ok geminiNoText⟩

/-- C8 counterexample: the missing-analysis-text case and a
transport-level failure surface to the orchestrator's caller as the
*same* generic error value (one `Error` whose message is the wrapped
string) — so the missing-text case is not a distinct `MalformedResponse`
classification, and the surfaced error is a catch-all wrapper rather
than one of the five specific classifications. -/
theorem adapterErrorsIndistinguishable :
    (analyzeWithGemini envAll c60 "general" none (.fail geminiLikeFail)).2
      = .error ⟨"Gemini service error: No analysis text received from Gemini"⟩ ∧
    (analyzeWithGemini envAll c60 "general" none (.ok geminiNoText)).2
      = .error ⟨"Gemini service error: No analysis text received from Gemini"⟩ ∧
    (analyzeWithAI envAll trGemFail clkW c60 "gemini" "general" none).result
      = (analyzeWithAI envAll trGemNoText clkW c60 "gemini" "general" none).result := by
  exact ⟨rfl, rfl, rfl⟩

/-- C8 amended: every adapter failure (transport-level or the Gemini
missing-text case) is surfaced as a single generic provider-service
error whose message wraps the underlying detail, produced by each
adapter's catch-all; the orchestrator rethrows these errors unchanged
to its caller. -/
theorem adapterErrorsGenericWrapped (env : Env) (tr : Transport) (clk : ClockModel)
    (content aty : String) (cp : Option String) :
    (∀ e, (analyzeWithClaude env content aty cp (.fail e)).2
      = .error ⟨"Claude AI service error: " ++ axiosErrMsg e⟩) ∧
    (∀ e, (analyzeWithOpenAI env content aty cp (.fail e)).2
      = .error ⟨"OpenAI service error: " ++ axiosErrMsg e⟩) ∧
    (∀ e, (analyzeWithGemini env content aty cp (.fail e)).2
      = .error ⟨"Gemini service error: " ++ axiosErrMsg e⟩) ∧
    (∀ d : GeminiData, strTruthy (geminiAnalysisText d) = false →
      (analyzeWithGemini env content aty cp (.ok d)).2
        = .error ⟨"Gemini service error: No analysis text received from Gemini"⟩) ∧
    (jsTrim content ≠ "" → ¬ jsLength content < 50 →
      (∀ e, strTruthy env.CLAUDE_API_KEY = true → tr.claude = .fail e →
        (analyzeWithAI env tr clk content "claude" aty cp).result
          = .error ⟨"Claude AI service error: " ++ axiosErrMsg e⟩) ∧
      (∀ e, strTruthy env.OPENAI_API_KEY = true → tr.openai = .fail e →
        (analyzeWithAI env tr clk content "openai" aty cp).result
          = .error ⟨"OpenAI service error: " ++ axiosErrMsg e⟩) ∧
      (∀ e, strTruthy env.GEMINI_API_KEY = true → tr.gemini = .fail e →
        (analyzeWithAI env tr clk content "gemini" aty cp).result
          = .error ⟨"Gemini service error: " ++ axiosErrMsg e⟩)) := by
  refine ⟨fun e => rfl, fun e => rfl, fun e => rfl, ?_, ?_⟩
  · intro d hd
    simp [analyzeWithGemini, hd]
  · intro h1 h2
    have h0 := valid_content_checks content h1
    have hc : lowerStr "claude" = "claude" := by decide
    have ho : lowerStr "openai" = "openai" := by decide
    have hg : lowerStr "gemini" = "gemini" := by decide
    refine ⟨fun e hk htr => ?_, fun e hk htr => ?_, fun e hk htr => ?_⟩ <;>
      simp [analyzeWithAI, analyzeWithClaude, analyzeWithOpenAI, analyzeWithGemini,
        h0, h2, hc, ho, hg, hk, htr]

/-- C8 amended witness: a concrete transport rejection surfaces through
the orchestrator as the wrapped generic error. -/
theorem adapterErrorsGenericWrapped_witness :
    (analyzeWithClaude envAll c60 "general" none (.fail ⟨none, "boom"⟩)).2
      = .error ⟨"Claude AI service error: " ++ axiosErrMsg ⟨none, "boom"⟩⟩ ∧
    (analyzeWithAI envAll trFail clkW c60 "gemini" "general" none).result
      = .error ⟨"Gemini service error: " ++ axiosErrMsg ⟨none, "boom"⟩⟩ := by
  have h := adapterErrorsGenericWrapped envAll trFail clkW c60 "general" none
  exact ⟨h.1 ⟨none, "boom"⟩,
    (h.2.2.2.2 (by decide) (by decide)).2.2 ⟨none, "boom"⟩ rfl rfl⟩

/-! ## C9 -/

/-- Shape of every post-validation run: adapter success, adapter
failure, missing credential, or unsupported provider. -/
theorem runCases (env : Env) (tr : Transport) (clk : ClockModel)
    (content provider aty : String) (cp : Option String)
    (h1 : jsTrim content ≠ "") (h2 : ¬ jsLength content < 50) :
    (∃ ps r nr, analyzeWithAI env tr clk content provider aty cp =
      { steps := [.readClock, .validateEmpty, .validateLength, .credentialCheck ps,
                  .adapterCall ps, .computeProcessingTime],
        netRequests := [nr],
        result := .ok (assembleSuccess clk content aty r) }) ∨
    (∃ ps e nr, analyzeWithAI env tr clk content provider aty cp =
      { steps := [.readClock, .validateEmpty, .validateLength, .credentialCheck ps,
                  .adapterCall ps],
        netRequests := [nr],
        result := .error e }) ∨
    (∃ ps m, analyzeWithAI env tr clk content provider aty cp =
      { steps := [.readClock, .validateEmpty, .validateLength, .credentialCheck ps],
        netRequests := [],
        result := .error ⟨m⟩ }) ∨
    (analyzeWithAI env tr clk content provider aty cp =
      { steps := [.readClock, .validateEmpty, .validateLength],
        netRequests := [],
        result := .error ⟨"Unsupported AI provider: " ++ provider⟩ }) := by
  have h0 := valid_content_checks content h1
  by_cases hcl : lowerStr provider = "claude"
  · by_cases hk : strTruthy env.CLAUDE_API_KEY = true
    · rcases hpe : analyzeWithClaude env content aty cp tr.claude with ⟨reqc, resc⟩
      cases resc with
      | ok r =>
        exact .inl ⟨"claude", r, .claudePost reqc,
          by simp [analyzeWithAI, h0, h2, hcl, hk, hpe]⟩
      | error e =>
        exact .inr (.inl ⟨"claude", e, .claudePost reqc,
          by simp [analyzeWithAI, h0, h2, hcl, hk, hpe]⟩)
    · exact .inr (.inr (.inl ⟨"claude", "Claude API key not configured",
        by simp [analyzeWithAI, h0, h2, hcl, hk]⟩))
  · by_cases hop : lowerStr provider = "openai"
    · by_cases hk : strTruthy env.OPENAI_API_KEY = true
      · rcases hpe : analyzeWithOpenAI env content aty cp tr.openai with ⟨reqo, reso⟩
        cases reso with
        | ok r =>
          exact .inl ⟨"openai", r, .openaiPost reqo,
            by simp [analyzeWithAI, h0, h2, hcl, hop, hk, hpe]⟩
        | error e =>
          exact .inr (.inl ⟨"openai", e, .openaiPost reqo,
            by simp [analyzeWithAI, h0, h2, hcl, hop, hk, hpe]⟩)
      · exact .inr (.inr (.inl ⟨"openai", "OpenAI API key not configured",
          by simp [analyzeWithAI, h0, h2, hcl, hop, hk]⟩))
    · by_cases hgm : lowerStr provider = "gemini"
      · by_cases hk : strTruthy env.GEMINI_API_KEY = true
        · rcases hpe : analyzeWithGemini env content aty cp tr.gemini with ⟨reqg, resg⟩
          cases resg with
          | ok r =>
            exact .inl ⟨"gemini", r, .geminiPost reqg,
              by simp [analyzeWithAI, h0, h2, hcl, hop, hgm, hk, hpe]⟩
          | error e =>
            exact .inr (.inl ⟨"gemini", e, .geminiPost reqg,
              by simp [analyzeWithAI, h0, h2, hcl, hop, hgm, hk, hpe]⟩)
        · exact .inr (.inr (.inl ⟨"gemini", "Gemini API key not configured",
            by simp [analyzeWithAI, h0, h2, hcl, hop, hgm, hk]⟩))
      · exact .inr (.inr (.inr (by simp [analyzeWithAI, h0, h2, hcl, hop, hgm])))

/-- The success output built by a run with the witness clock. -/
def cexOut : AnalysisOutput :=
  assembleSuccess clkW c60 "general"
    ⟨"claude", "Analysis text.", "claude-3-sonnet", 0, "success"⟩

/-- C9 counterexample: with the witness clock (validation 5 ms,
credential check 1 ms, adapter call 7 ms) a successful run reports a
processing time of 13 ms, not the 7 ms of the adapter call alone — the
start instant is read at entry (first step of the trace, before the
validation steps), so the reported time includes validation and the
credential check. -/
theorem processingTimeIncludesValidation :
    (analyzeWithAI envAll trOk clkW c60 "claude" "general" none).result = .ok cexOut ∧
    cexOut.metadata.processingTime = 13 ∧
    clkW.dAdapter = 7 ∧ clkW.dValidate = 5 ∧ clkW.dCred = 1 ∧
    (analyzeWithAI envAll trOk clkW c60 "claude" "general" none).steps
      = [.readClock, .validateEmpty, .validateLength, .credentialCheck "claude",
         .adapterCall "claude", .computeProcessingTime] := by
  exact ⟨rfl, rfl, rfl, rfl, rfl, rfl⟩

/-- C9 amended: the wall-clock start is read at the top of the entry
point, before content validation; on adapter success the reported
processing time spans validation, the credential check and the adapter
call; on any failure no processing time is computed at all. -/
theorem timingCoversWholePipeline (env : Env) (tr : Transport) (clk : ClockModel)
    (content provider aty : String) (cp : Option String)
    (h1 : jsTrim content ≠ "") (h2 : ¬ jsLength content < 50) :
    ((analyzeWithAI env tr clk content provider aty cp).steps.take 3
      = [.readClock, .validateEmpty, .validateLength]) ∧
    (∀ out, (analyzeWithAI env tr clk content provider aty cp).result = .ok out →
      out.metadata.processingTime = clk.dValidate + clk.dCred + clk.dAdapter) ∧
    (∀ e, (analyzeWithAI env tr clk content provider aty cp).result = .error e →
      Step.computeProcessingTime ∉ (analyzeWithAI env tr clk content provider aty cp).steps) := by
  rcases runCases env tr clk content provider aty cp h1 h2 with
    ⟨ps, r, nr, hrun⟩ | ⟨ps, e0, nr, hrun⟩ | ⟨ps, m, hrun⟩ | hrun <;> rw [hrun] <;>
    refine ⟨rfl, ?_, ?_⟩
  · intro out hout
    simp only [Except.ok.injEq] at hout
    subst hout
    rfl
  · intro e he
    exact absurd he (by simp)
  · intro out hout
    exact absurd hout (by simp)
  · intro e he
    simp
  · intro out hout
    exact absurd hout (by simp)
  · intro e he
    simp
  · intro out hout
    exact absurd hout (by simp)
  · intro e he
    simp

/-- C9 amended witness: the 13 ms success run, and a failing run whose
trace contains no processing-time computation. -/
theorem timingCoversWholePipeline_witness :
    (analyzeWithAI envAll trOk clkW c60 "claude" "general" none).result = .ok cexOut ∧
    cexOut.metadata.processingTime = clkW.dValidate + clkW.dCred + clkW.dAdapter ∧
    Step.computeProcessingTime ∉
      (analyzeWithAI envAll trFail clkW c60 "claude" "general" none).steps := by
  have hs := timingCoversWholePipeline envAll trOk clkW c60 "claude" "general" none
    (by decide) (by decide)
  have hf := timingCoversWholePipeline envAll trFail clkW c60 "claude" "general" none
    (by decide) (by decide)
  exact ⟨rfl, hs.2.1 cexOut rfl,
    hf.2.2 ⟨"Claude AI service error: boom"⟩ rfl⟩

end CyberBackend
